import Mathlib

/-!
Shallow embedding of prompty (src/main.rs): derivation of the daily
chronotype timestamps from the sunrise anchor, the upcoming-timestamp
selection, the anchor gathering/clamping, and one iteration of the
countdown loop.

Times of day and durations are modelled as signed nanosecond counts.
chrono stores a (seconds, nanoseconds) pair, but its comparisons and
differences agree with the total nanosecond value, and no leap-second
values arise here because every time comes from %H:%M parsing or from
whole-second offsets.  I/O reads (process arguments, Local::now().time())
are passed to the embedded functions as explicit parameters, in the order
the code performs them.
-/

/-- Nanoseconds in one second. -/
def nanosPerSec : ℤ := 1000000000

/-- Nanoseconds in one day, the wrap modulus of NaiveTime arithmetic. -/
def nanosPerDay : ℤ := 86400000000000

/-- chrono::Duration, as a total signed nanosecond count. -/
abbrev Duration := ℤ

/-- chrono::Duration::seconds. -/
def Duration.seconds (s : ℤ) : Duration := s * nanosPerSec

/-- chrono::Duration::minutes. -/
def Duration.minutes (m : ℤ) : Duration := m * 60 * nanosPerSec

/-- chrono::Duration::hours. -/
def Duration.hours (h : ℤ) : Duration := h * 3600 * nanosPerSec

/-- chrono::Duration::num_seconds: the number of whole seconds in the
duration, truncated toward zero (on the normalized (secs, nanos) pair this
is secs + 1 when secs is negative with nonzero nanos, which is exactly
truncating division of the total nanosecond count). -/
def Duration.num_seconds (d : Duration) : ℤ := Int.tdiv d 1000000000

/-- chrono::Duration::num_minutes: num_seconds / 60 with Rust i64 division,
which truncates toward zero. -/
def Duration.num_minutes (d : Duration) : ℤ := Int.tdiv (Duration.num_seconds d) 60

/-- chrono::Duration::num_hours: num_minutes / 60 with Rust i64 division. -/
def Duration.num_hours (d : Duration) : ℤ := Int.tdiv (Duration.num_minutes d) 60

/-- Ord::cmp for chrono::Duration: the total order on the nanosecond value. -/
def durationCmp (a b : Duration) : Ordering :=
  if a < b then Ordering.lt else if a = b then Ordering.eq else Ordering.gt

/-- NaiveTime::signed_duration_since: the exact signed difference a - b. -/
def signed_duration_since (a b : ℤ) : Duration := a - b

/-- NaiveTime::overflowing_add_signed, time component only (every caller
takes the .0 projection and drops the day carry): wrapping addition on the
24-hour clock. -/
def overflowing_add_signed (t : ℤ) (d : Duration) : ℤ := (t + d) % nanosPerDay

/-- NaiveTime::overflowing_sub_signed, time component only: wrapping
subtraction on the 24-hour clock (chrono implements it as adding the
negated duration). -/
def overflowing_sub_signed (t : ℤ) (d : Duration) : ℤ := (t - d) % nanosPerDay

/-- const MIN_WAKEUP_TIME (main.rs line 8). -/
def MIN_WAKEUP_TIME : String := "6:30"

/-- const MAX_WAKEUP_TIME (main.rs line 9). -/
def MAX_WAKEUP_TIME : String := "8:22"

/-- const SUNRISE_MODIFIER_FOR_WAKE_UP_TIME_IN_MINUTES (line 10). -/
def SUNRISE_MODIFIER_FOR_WAKE_UP_TIME_IN_MINUTES : ℤ := 15

/-- const OPTIMAL_SPORTS_TIME_SINCE_SUNRISE_IN_HOURS (line 12). -/
def OPTIMAL_SPORTS_TIME_SINCE_SUNRISE_IN_HOURS : ℤ := 11

/-- The i64 value (OPTIMAL_EVENING_DINNER_TIME_SINCE_SUNRISE_IN_HOURS * 3600.0) as i64
computed on line 80: 11.5 and 41400.0 are exactly representable in f32, so
the f32 product and the cast are exact and yield 41400. -/
def OPTIMAL_EVENING_DINNER_TIME_SECONDS : ℤ := 41400

/-- The i64 value (SUNRISE_MODIFIER_FOR_BED_TIME_IN_HOURS * 3600.0) as i64
computed on line 87: 15.5 and 55800.0 are exactly representable in f32, so
the f32 product and the cast are exact and yield 55800. -/
def BED_TIME_SECONDS : ℤ := 55800

/-- enum TimestampType (lines 15-22): a tagged time of day. -/
inductive TimestampType where
  | WakeUpTime (v : ℤ)
  | OptimalSportTime (v : ℤ)
  | BedTime (v : ℤ)
  | OptimalEveningDinnerTime (v : ℤ)
  | Sunrise (v : ℤ)
  deriving DecidableEq

/-- TimestampType::get_naive_time (lines 39-47; the source uses one
or-pattern over all five constructors). -/
def TimestampType.get_naive_time : TimestampType → ℤ
  | TimestampType.WakeUpTime v => v
  | TimestampType.OptimalSportTime v => v
  | TimestampType.BedTime v => v
  | TimestampType.OptimalEveningDinnerTime v => v
  | TimestampType.Sunrise v => v

/-- Whether a TimestampType value carries the Sunrise tag. -/
def TimestampType.isSunrise : TimestampType → Bool
  | TimestampType.Sunrise _ => true
  | _ => false

/-- struct Timestamps (lines 50-56); the source field _sunrise is named
sunrise here because a leading underscore only silences an unused-field
lint. -/
structure Timestamps where
  wake_up_time : TimestampType
  optimal_sport_time : TimestampType
  bed_time : TimestampType
  optimal_evening_dinner_time : TimestampType
  sunrise : TimestampType
  deriving DecidableEq

/-- Timestamps::new (lines 59-92), with the value returned by the
gather_input() call passed explicitly as sunrise. -/
def Timestamps.new (sunrise : ℤ) : Timestamps :=
  { sunrise := TimestampType.Sunrise sunrise
    wake_up_time := TimestampType.WakeUpTime
      (overflowing_sub_signed sunrise
        (Duration.minutes SUNRISE_MODIFIER_FOR_WAKE_UP_TIME_IN_MINUTES))
    optimal_sport_time := TimestampType.OptimalSportTime
      (overflowing_add_signed sunrise
        (Duration.hours OPTIMAL_SPORTS_TIME_SINCE_SUNRISE_IN_HOURS))
    optimal_evening_dinner_time := TimestampType.OptimalEveningDinnerTime
      (overflowing_add_signed sunrise
        (Duration.seconds OPTIMAL_EVENING_DINNER_TIME_SECONDS))
    bed_time := TimestampType.BedTime
      (overflowing_add_signed sunrise
        (Duration.seconds BED_TIME_SECONDS)) }

/-- Timestamps::get_upcomming_timestamp (lines 93-118), with the
Local::now().time() read on line 94 passed explicitly as now.  Starting
from bed_time, each guarded check overwrites the candidate when
Duration::seconds(1).cmp(&now.signed_duration_since(value)) is Greater. -/
def Timestamps.get_upcomming_timestamp (self : Timestamps) (now : ℤ) : TimestampType :=
  let upcomming_timestamp := self.bed_time
  let upcomming_timestamp :=
    match self.optimal_evening_dinner_time with
    | TimestampType.OptimalEveningDinnerTime value =>
        if durationCmp (Duration.seconds 1) (signed_duration_since now value) = Ordering.gt then
          self.optimal_evening_dinner_time
        else upcomming_timestamp
    | _ => upcomming_timestamp
  let upcomming_timestamp :=
    match self.optimal_sport_time with
    | TimestampType.OptimalSportTime value =>
        if durationCmp (Duration.seconds 1) (signed_duration_since now value) = Ordering.gt then
          self.optimal_sport_time
        else upcomming_timestamp
    | _ => upcomming_timestamp
  let upcomming_timestamp :=
    match self.wake_up_time with
    | TimestampType.WakeUpTime value =>
        if durationCmp (Duration.seconds 1) (signed_duration_since now value) = Ordering.gt then
          self.wake_up_time
        else upcomming_timestamp
    | _ => upcomming_timestamp
  upcomming_timestamp

/-- Timestamps::get_abs_time_diff (lines 119-121):
second.signed_duration_since(first). -/
def Timestamps.get_abs_time_diff (_self : Timestamps) (first second : ℤ) : Duration :=
  signed_duration_since second first

/-- chrono scan of a 1-to-2 digit numeric field, as used by parse_from_str
for %H and %M: take up to two leading ASCII digits; fail when the input
does not start with a digit.  Returns the value and the unconsumed rest. -/
def scanNum2 : List Char → Option (Nat × List Char)
  | c1 :: c2 :: rest =>
      if c1.isDigit then
        if c2.isDigit then some ((c1.toNat - 48) * 10 + (c2.toNat - 48), rest)
        else some (c1.toNat - 48, c2 :: rest)
      else none
  | [c1] => if c1.isDigit then some (c1.toNat - 48, []) else none
  | [] => none

/-- char::is_whitespace: the Unicode White_Space code points, the set that
str::trim_start removes.  chrono trims leading whitespace with it before
scanning each numeric field of the format string. -/
def isRustWhitespace (c : Char) : Bool :=
  (9 ≤ c.toNat && c.toNat ≤ 13) || c.toNat = 32 || c.toNat = 133 || c.toNat = 160 ||
    c.toNat = 5760 || (8192 ≤ c.toNat && c.toNat ≤ 8202) || c.toNat = 8232 ||
    c.toNat = 8233 || c.toNat = 8239 || c.toNat = 8287 || c.toNat = 12288

/-- str::trim_start, as applied by chrono before each numeric field. -/
def trimStartWhitespace (cs : List Char) : List Char :=
  cs.dropWhile isRustWhitespace

/-- NaiveTime::parse_from_str with the format "%H:%M": a 1-2 digit hour in
0..=23, a literal colon, a 1-2 digit minute in 0..=59, end of input (chrono
rejects trailing characters); seconds default to 0.  Before each numeric
field chrono trims leading whitespace (parse.rs applies trim_start before
scan::number), so inputs like " 7:00" and "7: 30" are accepted; the literal
colon is matched exactly, with no trimming, and nothing is trimmed after
the last field.  Returns the time as nanoseconds since midnight. -/
def parse_from_str_HM (s : String) : Option ℤ :=
  match scanNum2 (trimStartWhitespace s.data) with
  | none => none
  | some (h, rest) =>
    match rest with
    | ':' :: rest2 =>
      match scanNum2 (trimStartWhitespace rest2) with
      | none => none
      | some (m, rest3) =>
        if rest3 = [] ∧ h ≤ 23 ∧ m ≤ 59 then
          some (((h * 3600 + m * 60 : ℕ) : ℤ) * nanosPerSec)
        else none
    | _ => none

/-- str::replace("\n", ""): removing every newline character (line 130). -/
def replace_newline (s : String) : String :=
  ⟨s.data.filter (fun c => c ≠ Char.ofNat 10)⟩

/-- Ord::clamp as called on the parsed NaiveTime (line 135): the value when
it lies between the bounds, otherwise the violated bound.  The Rust
assertion min <= max holds at the one call site (6:30 <= 8:22). -/
def naive_clamp (x lo hi : ℤ) : ℤ :=
  if x < lo then lo else if x > hi then hi else x

/-- gather_input (lines 124-139), with the process argument list passed
explicitly (args, including the program name at index 0).  The two fatal
paths are modelled as Except.error carrying the diagnostic message; the unwraps
on the constant bounds cannot fail (see min_wakeup_time_parses and
max_wakeup_time_parses below) and are modelled with getD. -/
def gather_input (args : List String) : Except String ℤ :=
  let min_wakeup_time := (parse_from_str_HM MIN_WAKEUP_TIME).getD 0
  let max_wakeup_time := (parse_from_str_HM MAX_WAKEUP_TIME).getD 0
  if args.length = 2 then
    match parse_from_str_HM (replace_newline (args.getD 1 "")) with
    | some t => Except.ok (naive_clamp t min_wakeup_time max_wakeup_time)
    | none => Except.error "Wrong parameter. Expected time string."
  else
    Except.error "Wrong time format. Expected %H:%M (9:47) as first arg."

/-- The alert guard of countdown_next_events (lines 153-156):
num_hours == 0 && num_minutes == 10 && num_seconds == 0 on the remaining
duration, all three taken from the total duration without % 60. -/
def alertCondition (d : Duration) : Bool :=
  (Duration.num_hours d == 0) && (Duration.num_minutes d == 10)
    && (Duration.num_seconds d == 0)

/-- The HH:MM:SS breakdown printed on lines 163-167 of the loop body:
(num_hours, num_minutes % 60, num_seconds % 60), with Rust %, the
truncated remainder. -/
def display_components (d : Duration) : ℤ × ℤ × ℤ :=
  (Duration.num_hours d, Int.tmod (Duration.num_minutes d) 60,
    Int.tmod (Duration.num_seconds d) 60)

/-- The observable outcome of one pass of the countdown loop body. -/
structure IterationResult where
  upcomming : TimestampType
  diff_to_upcomming : Duration
  alert_fired : Bool
  deriving DecidableEq

/-- One iteration of the countdown_next_events loop (lines 149-172).  The
loop body reads the clock twice; the two Local::now().time() values are
passed explicitly in program order: clock1 is the read made inside
get_upcomming_timestamp (line 94, reached from line 150), clock2 is the
read on line 151.  alert_fired records whether the guard on lines 153-156
takes the alert() branch. -/
def countdown_iteration (timestamps : Timestamps) (clock1 clock2 : ℤ) : IterationResult :=
  let upcomming := timestamps.get_upcomming_timestamp clock1
  let now := clock2
  let diff_to_upcomming := timestamps.get_abs_time_diff now upcomming.get_naive_time
  { upcomming := upcomming
    diff_to_upcomming := diff_to_upcomming
    alert_fired := alertCondition diff_to_upcomming }

/-- Modelled from the spec (section 4.2 net effect of selectUpcoming; the
function itself is in src/main.rs, this definition restates the wording of
the spec for the refinement claim): the earliest tag in day order whose time
has not yet passed, BedTime when none qualifies.  Day order is WakeUpTime,
OptimalSportTime, OptimalEveningDinnerTime, BedTime; a tag has not yet
passed while now is less than one second past its time (the selection
predicate, see the C3 and C10 results). -/
def selectUpcoming_spec (ts : Timestamps) (now : ℤ) : TimestampType :=
  if now - ts.wake_up_time.get_naive_time < Duration.seconds 1 then ts.wake_up_time
  else if now - ts.optimal_sport_time.get_naive_time < Duration.seconds 1 then
    ts.optimal_sport_time
  else if now - ts.optimal_evening_dinner_time.get_naive_time < Duration.seconds 1 then
    ts.optimal_evening_dinner_time
  else if now - ts.bed_time.get_naive_time < Duration.seconds 1 then ts.bed_time
  else ts.bed_time

/-- The unwrap on MIN_WAKEUP_TIME cannot fail: "6:30" parses to 06:30. -/
theorem min_wakeup_time_parses : parse_from_str_HM MIN_WAKEUP_TIME = some 23400000000000 := by
  decide

/-- The unwrap on MAX_WAKEUP_TIME cannot fail: "8:22" parses to 08:22. -/
theorem max_wakeup_time_parses : parse_from_str_HM MAX_WAKEUP_TIME = some 30120000000000 := by
  decide

/-- Duration::cmp returns Greater exactly when the left duration is the
larger one. -/
theorem durationCmp_gt_iff (a b : Duration) : durationCmp a b = Ordering.gt ↔ b < a := by
  unfold durationCmp
  split_ifs with h1 h2
  · simp only [reduceCtorEq, false_iff]
    exact fun h => absurd h (not_lt.mpr h1.le)
  · simp only [reduceCtorEq, false_iff]
    exact fun h => absurd h (h2 ▸ lt_irrefl a)
  · simp only [true_iff]
    exact lt_of_le_of_ne (not_lt.mp h1) (Ne.symm h2)

/-- The overwrite scan of get_upcomming_timestamp on a set built by
Timestamps::new reduces to a first-match over wake-up, sport, dinner in day
order, with bed_time as the default. -/
theorem get_upcomming_chain (s now : ℤ) :
    (Timestamps.new s).get_upcomming_timestamp now =
      (if now - (Timestamps.new s).wake_up_time.get_naive_time < Duration.seconds 1 then
        (Timestamps.new s).wake_up_time
      else if now - (Timestamps.new s).optimal_sport_time.get_naive_time < Duration.seconds 1 then
        (Timestamps.new s).optimal_sport_time
      else if now - (Timestamps.new s).optimal_evening_dinner_time.get_naive_time <
          Duration.seconds 1 then
        (Timestamps.new s).optimal_evening_dinner_time
      else (Timestamps.new s).bed_time) := by
  simp only [Timestamps.new, Timestamps.get_upcomming_timestamp, TimestampType.get_naive_time,
    durationCmp_gt_iff, signed_duration_since]

/-- One second, as chrono::Duration::seconds(1) nanoseconds. -/
theorem duration_seconds_one : Duration.seconds 1 = 1000000000 := by decide

/-- For anchors inside the clamped wake-up range, no derived time wraps
around midnight: every getter equals the plain offset sum. -/
theorem new_times_in_range (s : ℤ) (h1 : 23400000000000 ≤ s) (h2 : s ≤ 30120000000000) :
    (Timestamps.new s).wake_up_time.get_naive_time = s - 900000000000
  ∧ (Timestamps.new s).optimal_sport_time.get_naive_time = s + 39600000000000
  ∧ (Timestamps.new s).optimal_evening_dinner_time.get_naive_time = s + 41400000000000
  ∧ (Timestamps.new s).bed_time.get_naive_time = s + 55800000000000 := by
  simp only [Timestamps.new, TimestampType.get_naive_time, overflowing_add_signed,
    overflowing_sub_signed, Duration.minutes, Duration.hours, Duration.seconds,
    SUNRISE_MODIFIER_FOR_WAKE_UP_TIME_IN_MINUTES, OPTIMAL_SPORTS_TIME_SINCE_SUNRISE_IN_HOURS,
    OPTIMAL_EVENING_DINNER_TIME_SECONDS, BED_TIME_SECONDS, nanosPerSec, nanosPerDay]
  refine ⟨?_, ?_, ?_, ?_⟩ <;> omega

/-- The alert guard is unsatisfiable: num_minutes is num_seconds divided by
60, so num_minutes = 10 and num_seconds = 0 cannot hold together. -/
theorem alertCondition_eq_false (d : Duration) : alertCondition d = false := by
  unfold alertCondition Duration.num_hours Duration.num_minutes Duration.num_seconds
  rcases eq_or_ne (Int.tdiv d 1000000000) 0 with h | h
  · rw [h]; decide
  · have hf : (Int.tdiv d 1000000000 == 0) = false := by
      simp [beq_eq_false_iff_ne, h]
    rw [hf, Bool.and_false]

/-- C1: at a remaining duration of exactly 0:10:00 (600 seconds) the alert
guard of the loop evaluates to false, even though the HH:MM:SS breakdown the loop
prints for that same duration is exactly (0, 10, 0): the guard compares the
total num_minutes/num_seconds without the % 60 reduction the display
applies, so the exact-match alert the spec describes never fires. -/
theorem alertCondition_false_at_exact_ten_minutes :
    alertCondition 600000000000 = false ∧ display_components 600000000000 = (0, 10, 0) := by
  decide

/-- C2: the countdown loop never invokes the alerter: the alert guard is
false for every signed remaining duration, so the alert() call and the
10-second suppression sleep are unreachable in every iteration. -/
theorem alert_never_fires :
    (∀ d : Duration, alertCondition d = false)
  ∧ ∀ (ts : Timestamps) (c1 c2 : ℤ), (countdown_iteration ts c1 c2).alert_fired = false := by
  refine ⟨alertCondition_eq_false, fun ts c1 c2 => ?_⟩
  simp only [countdown_iteration]
  exact alertCondition_eq_false _

/-- C3 counterexample: with anchor 07:00 and now exactly the dinner time
18:30, the dinner tag is promoted over the bed-time default although
(tag_time - now) = 0 is not greater than 1 second, refuting the promotion
window (tag_time - now) > 1 s that the spec states. -/
theorem promotion_at_exact_tag_time_refutes_spec_window :
    (Timestamps.new 25200000000000).get_upcomming_timestamp 66600000000000
      = (Timestamps.new 25200000000000).optimal_evening_dinner_time
  ∧ (Timestamps.new 25200000000000).optimal_evening_dinner_time.get_naive_time = 66600000000000
  ∧ (Timestamps.new 25200000000000).bed_time
      ≠ (Timestamps.new 25200000000000).optimal_evening_dinner_time
  ∧ ¬((66600000000000 : ℤ) - 66600000000000 > Duration.seconds 1) := by
  decide

/-- C3 amended: in get_upcomming_timestamp a tag is promoted to the current
candidate precisely when now - tag_time < 1 second, i.e. a tag counts as
not yet passed until one full second after its time; the selection is the
first tag in day order satisfying that window, defaulting to bed_time. -/
theorem promotion_iff_less_than_one_second_after (s now : ℤ) :
    (Timestamps.new s).get_upcomming_timestamp now =
      (if now - (Timestamps.new s).wake_up_time.get_naive_time < Duration.seconds 1 then
        (Timestamps.new s).wake_up_time
      else if now - (Timestamps.new s).optimal_sport_time.get_naive_time < Duration.seconds 1 then
        (Timestamps.new s).optimal_sport_time
      else if now - (Timestamps.new s).optimal_evening_dinner_time.get_naive_time <
          Duration.seconds 1 then
        (Timestamps.new s).optimal_evening_dinner_time
      else (Timestamps.new s).bed_time) :=
  get_upcomming_chain s now

/-- C4: for every anchor in the clamped range and every now, the scan of
get_upcomming_timestamp returns the earliest tag in day order whose time
has not yet passed (selection window now - tag_time < 1 s), BedTime when
every tag has passed; with now strictly before all tag times it returns
the wake-up tag, and the result never carries the Sunrise tag. -/
theorem get_upcomming_eq_earliest_not_passed (s now : ℤ)
    (_h1 : 23400000000000 ≤ s) (_h2 : s ≤ 30120000000000) :
    (Timestamps.new s).get_upcomming_timestamp now = selectUpcoming_spec (Timestamps.new s) now
  ∧ ((now < (Timestamps.new s).wake_up_time.get_naive_time
      ∧ now < (Timestamps.new s).optimal_sport_time.get_naive_time
      ∧ now < (Timestamps.new s).optimal_evening_dinner_time.get_naive_time
      ∧ now < (Timestamps.new s).bed_time.get_naive_time) →
      (Timestamps.new s).get_upcomming_timestamp now = (Timestamps.new s).wake_up_time)
  ∧ ((Duration.seconds 1 ≤ now - (Timestamps.new s).wake_up_time.get_naive_time
      ∧ Duration.seconds 1 ≤ now - (Timestamps.new s).optimal_sport_time.get_naive_time
      ∧ Duration.seconds 1 ≤ now - (Timestamps.new s).optimal_evening_dinner_time.get_naive_time
      ∧ Duration.seconds 1 ≤ now - (Timestamps.new s).bed_time.get_naive_time) →
      (Timestamps.new s).get_upcomming_timestamp now = (Timestamps.new s).bed_time)
  ∧ TimestampType.isSunrise ((Timestamps.new s).get_upcomming_timestamp now) = false := by
  have hch := get_upcomming_chain s now
  refine ⟨?_, ?_, ?_, ?_⟩
  · rw [hch]
    simp only [selectUpcoming_spec, ite_self]
  · rintro ⟨hw, -, -, -⟩
    have hpos : (0 : ℤ) < Duration.seconds 1 := by decide
    rw [hch, if_pos ((sub_neg.mpr hw).trans hpos)]
  · rintro ⟨hw, hs, hd, hb⟩
    rw [hch, if_neg (not_lt.mpr hw), if_neg (not_lt.mpr hs), if_neg (not_lt.mpr hd)]
  · rw [hch]
    split_ifs <;> simp [Timestamps.new, TimestampType.isSunrise]

/-- C4 witness: anchor 07:00, now 06:00 (before all tag times). -/
theorem get_upcomming_eq_earliest_not_passed_witness :
    (Timestamps.new 25200000000000).get_upcomming_timestamp 21600000000000
      = selectUpcoming_spec (Timestamps.new 25200000000000) 21600000000000 :=
  (get_upcomming_eq_earliest_not_passed 25200000000000 21600000000000 (by decide) (by decide)).1

/-- C5: Timestamps::new derives exactly one time per tag from the anchor,
with the fixed offsets -15 minutes, +11 hours, +11.5 hours (41400 s) and
+15.5 hours (55800 s), each wrapped modulo 24 hours, and the Sunrise tag
keeps the anchor; in particular anchor 07:00 yields wake-up time 06:45. -/
theorem timestamps_new_offsets (s : ℤ) :
    (Timestamps.new s).wake_up_time
      = TimestampType.WakeUpTime ((s - 900000000000) % 86400000000000)
  ∧ (Timestamps.new s).optimal_sport_time
      = TimestampType.OptimalSportTime ((s + 39600000000000) % 86400000000000)
  ∧ (Timestamps.new s).optimal_evening_dinner_time
      = TimestampType.OptimalEveningDinnerTime ((s + 41400000000000) % 86400000000000)
  ∧ (Timestamps.new s).bed_time
      = TimestampType.BedTime ((s + 55800000000000) % 86400000000000)
  ∧ (Timestamps.new s).sunrise = TimestampType.Sunrise s
  ∧ (Timestamps.new 25200000000000).wake_up_time = TimestampType.WakeUpTime 24300000000000 := by
  refine ⟨?_, ?_, ?_, ?_, rfl, by decide⟩ <;>
    simp only [Timestamps.new, overflowing_add_signed, overflowing_sub_signed, Duration.minutes,
      Duration.hours, Duration.seconds, SUNRISE_MODIFIER_FOR_WAKE_UP_TIME_IN_MINUTES,
      OPTIMAL_SPORTS_TIME_SINCE_SUNRISE_IN_HOURS, OPTIMAL_EVENING_DINNER_TIME_SECONDS,
      BED_TIME_SECONDS, nanosPerSec, nanosPerDay] <;>
    norm_num

/-- C6: gather_input never rejects a successfully parsed anchor: it returns
the clamped value, which is the anchor itself inside [6:30, 8:22] (bounds
inclusive), the lower bound below the range, and the upper bound above. -/
theorem gather_input_clamps_parsed_anchor (prog a_str : String) (a : ℤ)
    (h : parse_from_str_HM (replace_newline a_str) = some a) :
    gather_input [prog, a_str] = Except.ok (naive_clamp a 23400000000000 30120000000000)
  ∧ (23400000000000 ≤ a → a ≤ 30120000000000 →
      naive_clamp a 23400000000000 30120000000000 = a)
  ∧ (a < 23400000000000 → naive_clamp a 23400000000000 30120000000000 = 23400000000000)
  ∧ (30120000000000 < a → naive_clamp a 23400000000000 30120000000000 = 30120000000000) := by
  refine ⟨?_, ?_, ?_, ?_⟩
  · simp only [gather_input, min_wakeup_time_parses, max_wakeup_time_parses, Option.getD_some,
      List.length_cons, List.length_nil, List.getD_cons_succ, List.getD_cons_zero, h]
    exact if_pos trivial
  · intro hlo hhi
    unfold naive_clamp
    split_ifs
    all_goals omega
  · intro hlt
    unfold naive_clamp
    split_ifs
    all_goals omega
  · intro hgt
    unfold naive_clamp
    split_ifs
    all_goals omega

/-- C6 witness: the out-of-range anchor 05:00 is clamped up to 06:30. -/
theorem gather_input_clamps_parsed_anchor_witness :
    gather_input ["prompty", "5:00"]
      = Except.ok (naive_clamp 18000000000000 23400000000000 30120000000000)
  ∧ naive_clamp 18000000000000 23400000000000 30120000000000 = 23400000000000 :=
  ⟨(gather_input_clamps_parsed_anchor "prompty" "5:00" 18000000000000 (by decide)).1,
   (gather_input_clamps_parsed_anchor "prompty" "5:00" 18000000000000 (by decide)).2.2.1
     (by decide)⟩

/-- C7 counterexample: with anchor 07:00, first clock read 06:00 and second
clock read 20:00, the iteration reports the wake-up tag (from the first
read) with remaining duration -13:15:00 (from the second read); no single
now value yields that pair, since the unique now with wake-up time minus
now equal to that diff is 20:00, where the selection returns bed time. -/
theorem countdown_iteration_two_clock_reads :
    (countdown_iteration (Timestamps.new 25200000000000) 21600000000000 72000000000000).upcomming
      = (Timestamps.new 25200000000000).wake_up_time
  ∧ (countdown_iteration (Timestamps.new 25200000000000) 21600000000000
        72000000000000).diff_to_upcomming = -47700000000000
  ∧ (Timestamps.new 25200000000000).wake_up_time.get_naive_time - 21600000000000
      ≠ -47700000000000
  ∧ (Timestamps.new 25200000000000).wake_up_time.get_naive_time - 72000000000000
      = -47700000000000
  ∧ (Timestamps.new 25200000000000).get_upcomming_timestamp 72000000000000
      ≠ (Timestamps.new 25200000000000).wake_up_time := by
  decide

/-- C7 amended: each loop iteration reads the clock twice; the upcoming
timestamp is selected with the first reading (made inside
get_upcomming_timestamp) and the remaining duration is the upcoming time
minus the second reading, which also feeds the alert guard. -/
theorem countdown_iteration_uses_first_then_second_read (ts : Timestamps) (c1 c2 : ℤ) :
    (countdown_iteration ts c1 c2).upcomming = ts.get_upcomming_timestamp c1
  ∧ (countdown_iteration ts c1 c2).diff_to_upcomming
      = (ts.get_upcomming_timestamp c1).get_naive_time - c2
  ∧ (countdown_iteration ts c1 c2).alert_fired
      = alertCondition ((ts.get_upcomming_timestamp c1).get_naive_time - c2) :=
  ⟨rfl, rfl, rfl⟩

/-- C8 counterexample: with an extra argument after a valid anchor string,
gather_input aborts although the anchor is present and parses. -/
theorem gather_input_rejects_valid_anchor_with_extra_arg :
    gather_input ["prompty", "7:00", "extra"]
      = Except.error "Wrong time format. Expected %H:%M (9:47) as first arg."
  ∧ parse_from_str_HM "7:00" = some 25200000000000 :=
  ⟨rfl, by decide⟩

/-- C8 amended: anchor acquisition is fatal with a diagnostic message
exactly when the argument list does not consist of exactly one argument or
that argument (after newline removal) is not a valid HH:MM time; a single
valid argument yields the parsed-then-clamped time, with no retry. -/
theorem gather_input_error_cases (args : List String) :
    (∀ a : ℤ, args.length = 2 →
        parse_from_str_HM (replace_newline (args.getD 1 "")) = some a →
        gather_input args = Except.ok (naive_clamp a 23400000000000 30120000000000))
  ∧ (args.length = 2 → parse_from_str_HM (replace_newline (args.getD 1 "")) = none →
        gather_input args = Except.error "Wrong parameter. Expected time string.")
  ∧ (args.length ≠ 2 →
        gather_input args
          = Except.error "Wrong time format. Expected %H:%M (9:47) as first arg.") := by
  refine ⟨?_, ?_, ?_⟩
  · intro a hlen hp
    simp only [gather_input, min_wakeup_time_parses, max_wakeup_time_parses, Option.getD_some,
      hp, hlen]
    exact if_pos trivial
  · intro hlen hp
    simp only [gather_input, hp, hlen]
    exact if_pos trivial
  · intro hlen
    simp only [gather_input]
    exact if_neg hlen

/-- C8 witness: a single anchor argument " 7:00" with leading whitespace is
accepted (chrono trims whitespace before the hour field) and, being inside
the range, used unchanged. -/
theorem gather_input_error_cases_witness :
    gather_input ["prompty", " 7:00"]
      = Except.ok (naive_clamp 25200000000000 23400000000000 30120000000000) :=
  (gather_input_error_cases ["prompty", " 7:00"]).1 25200000000000 (by decide) (by decide)

/-- C9: with the compiled-in constants, for every anchor in the clamped
range [6:30, 8:22] each derived time is the unwrapped offset sum, stays
within the day (so no value wraps past midnight), and the set satisfies
wake-up < sport < dinner < bed as plain times of day. -/
theorem derived_times_ordered_no_wrap (s : ℤ)
    (h1 : 23400000000000 ≤ s) (h2 : s ≤ 30120000000000) :
    (Timestamps.new s).wake_up_time.get_naive_time = s - 900000000000
  ∧ (Timestamps.new s).optimal_sport_time.get_naive_time = s + 39600000000000
  ∧ (Timestamps.new s).optimal_evening_dinner_time.get_naive_time = s + 41400000000000
  ∧ (Timestamps.new s).bed_time.get_naive_time = s + 55800000000000
  ∧ 0 ≤ (Timestamps.new s).wake_up_time.get_naive_time
  ∧ (Timestamps.new s).bed_time.get_naive_time < 86400000000000
  ∧ (Timestamps.new s).wake_up_time.get_naive_time
      < (Timestamps.new s).optimal_sport_time.get_naive_time
  ∧ (Timestamps.new s).optimal_sport_time.get_naive_time
      < (Timestamps.new s).optimal_evening_dinner_time.get_naive_time
  ∧ (Timestamps.new s).optimal_evening_dinner_time.get_naive_time
      < (Timestamps.new s).bed_time.get_naive_time := by
  obtain ⟨e1, e2, e3, e4⟩ := new_times_in_range s h1 h2
  refine ⟨e1, e2, e3, e4, ?_, ?_, ?_, ?_, ?_⟩ <;> simp only [e1, e2, e3, e4] <;> omega

/-- C9 witness: anchor 07:00, where wake-up 06:45 precedes sport 18:00. -/
theorem derived_times_ordered_no_wrap_witness :
    (Timestamps.new 25200000000000).wake_up_time.get_naive_time
      < (Timestamps.new 25200000000000).optimal_sport_time.get_naive_time :=
  (derived_times_ordered_no_wrap 25200000000000 (by decide) (by decide)).2.2.2.2.2.2.1

/-- C10: for every anchor in the clamped range, a tag whose time has been
reached or passed by strictly less than one second is still the selected
upcoming timestamp; in particular at now exactly equal to the time of a
tag that tag is selected rather than the next later one. -/
theorem tag_selected_within_one_second_after_its_time (s now : ℤ)
    (h1 : 23400000000000 ≤ s) (h2 : s ≤ 30120000000000) :
    (0 ≤ now - (Timestamps.new s).wake_up_time.get_naive_time →
      now - (Timestamps.new s).wake_up_time.get_naive_time < Duration.seconds 1 →
      (Timestamps.new s).get_upcomming_timestamp now = (Timestamps.new s).wake_up_time)
  ∧ (0 ≤ now - (Timestamps.new s).optimal_sport_time.get_naive_time →
      now - (Timestamps.new s).optimal_sport_time.get_naive_time < Duration.seconds 1 →
      (Timestamps.new s).get_upcomming_timestamp now = (Timestamps.new s).optimal_sport_time)
  ∧ (0 ≤ now - (Timestamps.new s).optimal_evening_dinner_time.get_naive_time →
      now - (Timestamps.new s).optimal_evening_dinner_time.get_naive_time < Duration.seconds 1 →
      (Timestamps.new s).get_upcomming_timestamp now
        = (Timestamps.new s).optimal_evening_dinner_time)
  ∧ (0 ≤ now - (Timestamps.new s).bed_time.get_naive_time →
      now - (Timestamps.new s).bed_time.get_naive_time < Duration.seconds 1 →
      (Timestamps.new s).get_upcomming_timestamp now = (Timestamps.new s).bed_time) := by
  obtain ⟨e1, e2, e3, e4⟩ := new_times_in_range s h1 h2
  have hch := get_upcomming_chain s now
  simp only [e1, e2, e3, e4, duration_seconds_one] at hch ⊢
  refine ⟨?_, ?_, ?_, ?_⟩
  · intro ha hb
    rw [hch, if_pos (by omega)]
  · intro ha hb
    rw [hch, if_neg (by omega), if_pos (by omega)]
  · intro ha hb
    rw [hch, if_neg (by omega), if_neg (by omega), if_pos (by omega)]
  · intro ha hb
    rw [hch, if_neg (by omega), if_neg (by omega), if_neg (by omega)]

/-- C10 witness: anchor 07:00, now exactly the sport time 18:00; the sport
tag is still selected. -/
theorem tag_selected_within_one_second_after_its_time_witness :
    (Timestamps.new 25200000000000).get_upcomming_timestamp 64800000000000
      = (Timestamps.new 25200000000000).optimal_sport_time :=
  (tag_selected_within_one_second_after_its_time 25200000000000 64800000000000 (by decide)
    (by decide)).2.1 (by decide) (by decide)
